import Mathlib

/-!
Shallow embedding of src/src/modules/commander/mag_calibration.cpp
(magnetometer calibration routine of the firmware).

Scalar sensor values are modelled as FloatV, an Option over the rationals:
some q is a finite value, none is a non-finite value (NaN or infinity), and
isfinite is Option.isSome.  External collaborators (the uORB poll stream,
the driver ioctls, the parameter store, and sphere_fit_least_squares from
calibration_routines.cpp, which is not part of this file) are modelled as
environment oracles recorded in InstEnv, DevEnv and OrchEnv.  The
uninitialized stack variables sphere_x, sphere_y, sphere_z that the code
reads when the sphere fit is skipped are modelled as the arbitrary
environment-supplied values garbX, garbY, garbZ (indeterminate contents).
-/

/-- Return code OK of the firmware (0). -/
def OK : Int := 0

/-- Return code ERROR of the firmware (static const int ERROR = -1). -/
def ERROR : Int := -1

/-- A scalar sensor value: some q is finite, none is NaN or infinite. -/
abbrev FloatV : Type := Option ℚ

/-- The isfinite test of math.h on the modelled values. -/
def isfinite (v : FloatV) : Bool := v.isSome

/-- One recorded magnetometer sample (mag.x, mag.y, mag.z). -/
abbrev Sample : Type := FloatV × FloatV × FloatV

/-- calibration_maxcount = 240 in calibrate_instance. -/
def calibration_maxcount : Nat := 240

/-- One outcome of the poll call in the acquisition loop: either new data
arrived (poll_ret greater than 0) or the wait timed out or failed. -/
inductive PollEvent : Type
  | timeout : PollEvent
  | sample (x y z : FloatV) : PollEvent
deriving DecidableEq

/-- State of the acquisition loop when it exits: the collected samples
(the x, y, z arrays up to calibration_counter), the final poll_errcount,
and whether the loop was aborted through the poll_errcount check. -/
structure AcqResult : Type where
  samples : List Sample
  errcount : Nat
  aborted : Bool
deriving DecidableEq

/-- The while loop of calibrate_instance (lines 217 to 249).  The event
list is the sequence of poll outcomes that occur before the 25 second
deadline; exhausting it models the deadline passing.  Each iteration
checks calibration_counter against calibration_maxcount, processes one
poll outcome (recording a sample or incrementing poll_errcount; the
counter is never reset), and afterwards aborts if poll_errcount
exceeds 1000. -/
def acqGo : List PollEvent → List Sample → Nat → AcqResult
  | [], buf, errs => { samples := buf, errcount := errs, aborted := false }
  | ev :: rest, buf, errs =>
    if buf.length < calibration_maxcount then
      match ev with
      | PollEvent.sample a b c =>
        if 1000 < errs then
          { samples := buf ++ [(a, b, c)], errcount := errs, aborted := true }
        else
          acqGo rest (buf ++ [(a, b, c)]) errs
      | PollEvent.timeout =>
        if 1000 < errs + 1 then
          { samples := buf, errcount := errs + 1, aborted := true }
        else
          acqGo rest buf (errs + 1)
    else { samples := buf, errcount := errs, aborted := false }

/-- The struct mag_scale of the mag driver: offsets, scale factors and
temperature compensation fields, as used by this file. -/
structure mag_scale : Type where
  x_offset : FloatV
  x_scale : FloatV
  y_offset : FloatV
  y_scale : FloatV
  z_offset : FloatV
  z_scale : FloatV
  cal_temp : FloatV
  min_temp : FloatV
  max_temp : FloatV
  x1_temp0 : FloatV
  x1_temp1 : FloatV
  x1_temp2 : FloatV
  x2_temp0 : FloatV
  x2_temp1 : FloatV
  x2_temp2 : FloatV
  x3_temp0 : FloatV
  x3_temp1 : FloatV
  x3_temp2 : FloatV
deriving DecidableEq

/-- A value passed to param_set: the unsigned device id or a float field
of the mag_scale struct. -/
inductive PVal : Type
  | pnat (n : Nat) : PVal
  | pfl (v : FloatV) : PVal
deriving DecidableEq

/-- One attempted param_set call: the key, the value, and whether the
store reported OK. -/
structure ParamWrite : Type where
  key : String
  val : PVal
  ok : Bool
deriving DecidableEq

/-- Environment oracle for one run of calibrate_instance: outcomes of the
memory allocation, the subscription, the poll stream, the sphere fit
(external to this file), the ioctls of the apply step, and the parameter
store.  garbX, garbY, garbZ model the indeterminate contents of the
uninitialized sphere_x, sphere_y, sphere_z stack variables. -/
structure InstEnv : Type where
  alloc_ok : Bool
  sub_ok : Bool
  events : List PollEvent
  fitX : FloatV
  fitY : FloatV
  fitZ : FloatV
  fitR : FloatV
  garbX : FloatV
  garbY : FloatV
  garbZ : FloatV
  gscale_ok : Bool
  scaleRead : mag_scale
  sscale_ok : Bool
  paramOk : Nat → Bool

/-- Observable outcome of one run of calibrate_instance: the returned res,
whether sphere_fit_least_squares was invoked, whether the apply block at
line 285 was entered, the struct written back to the device with
MAGIOCSSCALE, the struct whose fields were sent to the parameter store,
the attempted param_set calls in order, and the final counters. -/
structure InstResult : Type where
  res : Int
  fitInvoked : Bool
  applyPhase : Bool
  deviceWrite : Option mag_scale
  paramStruct : Option mag_scale
  paramWrites : List ParamWrite
  nsamples : Nat
  errcount : Nat
deriving DecidableEq

/-- Parameter key CAL_MAG%u_FIELD for instance s. -/
def magKey (s : Nat) (field : String) : String :=
  "CAL_MAG" ++ Nat.repr s ++ "_" ++ field

/-- The 19 parameter keys written for instance s, in program order. -/
def paramKeys (s : Nat) : List String :=
  [magKey s "ID", magKey s "XOFF", magKey s "YOFF", magKey s "ZOFF",
   magKey s "XSCALE", magKey s "YSCALE", magKey s "ZSCALE",
   magKey s "TMPNOM", magKey s "TMPMIN", magKey s "TMPMAX",
   magKey s "TA0X0", magKey s "TA0X1", magKey s "TA0X2",
   magKey s "TA1X0", magKey s "TA1X1", magKey s "TA1X2",
   magKey s "TA2X0", magKey s "TA2X1", magKey s "TA2X2"]

/-- The 19 param_set calls of lines 335 to 363, in program order: key and
value for instance s, device id dev and struct m. -/
def paramSeq (s dev : Nat) (m : mag_scale) : List (String × PVal) :=
  [(magKey s "ID", PVal.pnat dev),
   (magKey s "XOFF", PVal.pfl m.x_offset),
   (magKey s "YOFF", PVal.pfl m.y_offset),
   (magKey s "ZOFF", PVal.pfl m.z_offset),
   (magKey s "XSCALE", PVal.pfl m.x_scale),
   (magKey s "YSCALE", PVal.pfl m.y_scale),
   (magKey s "ZSCALE", PVal.pfl m.z_scale),
   (magKey s "TMPNOM", PVal.pfl m.cal_temp),
   (magKey s "TMPMIN", PVal.pfl m.min_temp),
   (magKey s "TMPMAX", PVal.pfl m.max_temp),
   (magKey s "TA0X0", PVal.pfl m.x1_temp0),
   (magKey s "TA0X1", PVal.pfl m.x2_temp0),
   (magKey s "TA0X2", PVal.pfl m.x3_temp0),
   (magKey s "TA1X0", PVal.pfl m.x1_temp1),
   (magKey s "TA1X1", PVal.pfl m.x2_temp1),
   (magKey s "TA1X2", PVal.pfl m.x3_temp1),
   (magKey s "TA2X0", PVal.pfl m.x1_temp2),
   (magKey s "TA2X1", PVal.pfl m.x2_temp2),
   (magKey s "TA2X2", PVal.pfl m.x3_temp2)]

/-- Run the param_set sequence: every write is attempted unconditionally;
the i-th outcome is taken from the store oracle. -/
def runWrites (ok : Nat → Bool) (ps : List (String × PVal)) : List ParamWrite :=
  ps.enum.map (fun p => { key := p.2.1, val := p.2.2, ok := ok p.1 })

/-- The hardcoded matlab temperature compensation table of lines 315
to 330, applied to struct m. -/
def tempTable (m : mag_scale) : mag_scale :=
  { m with
    cal_temp := some 25.00
    min_temp := some 3.30
    max_temp := some 41.18
    x3_temp0 := some 0.0000002037008925981353968
    x2_temp0 := some (-0.0000053157482398091815412)
    x1_temp0 := some (-0.0008966009481810033321380)
    x3_temp1 := some (-0.0000000252839047476527412)
    x2_temp1 := some (-0.0000029153295599826378747)
    x1_temp1 := some 0.0003352015919517725706100
    x3_temp2 := some 0.0000000083432984965270406
    x2_temp2 := some 0.0000064743926486698910593
    x1_temp2 := some (-0.0014722041087225079536437) }

/-- The conditional of line 314: the table is loaded only when the device
id equals the literal 131594 (the LSM303D of the dataset). -/
def applyTempTable (dev : Nat) (m : mag_scale) : mag_scale :=
  if dev = 131594 then tempTable m else m

/-- The apply block of lines 285 to 377: read the current scale struct,
overwrite only its offsets with the given center, write it back to the
device, conditionally load the temperature table, then attempt all 19
param_set calls; any failed write sets res to ERROR. -/
def applyStage (s dev : Nat) (env : InstEnv) (cx cy cz : FloatV)
    (fitInv : Bool) (acq : AcqResult) : InstResult :=
  if env.gscale_ok = false then
    { res := ERROR, fitInvoked := fitInv, applyPhase := true,
      deviceWrite := none, paramStruct := none, paramWrites := [],
      nsamples := acq.samples.length, errcount := acq.errcount }
  else
    if env.sscale_ok = false then
      { res := ERROR, fitInvoked := fitInv, applyPhase := true,
        deviceWrite := some { env.scaleRead with
          x_offset := cx, y_offset := cy, z_offset := cz },
        paramStruct := none, paramWrites := [],
        nsamples := acq.samples.length, errcount := acq.errcount }
    else
      { res :=
          if ((runWrites env.paramOk (paramSeq s dev
                (applyTempTable dev { env.scaleRead with
                  x_offset := cx, y_offset := cy, z_offset := cz }))).any
              (fun w => !w.ok)) = true
          then ERROR else OK,
        fitInvoked := fitInv, applyPhase := true,
        deviceWrite := some { env.scaleRead with
          x_offset := cx, y_offset := cy, z_offset := cz },
        paramStruct := some (applyTempTable dev { env.scaleRead with
          x_offset := cx, y_offset := cy, z_offset := cz }),
        paramWrites := runWrites env.paramOk (paramSeq s dev
          (applyTempTable dev { env.scaleRead with
            x_offset := cx, y_offset := cy, z_offset := cz })),
        nsamples := acq.samples.length, errcount := acq.errcount }

/-- calibrate_instance (lines 158 to 380).  After acquisition, the fit is
invoked only when res is OK and more than calibration_maxcount / 2
samples were collected; note that when fewer samples were collected and
acquisition did not abort, res is left at OK and the apply block runs
with the uninitialized sphere center (modelled by garbX, garbY, garbZ). -/
def calibrate_instance (s device_id : Nat) (env : InstEnv) : InstResult :=
  if env.alloc_ok = false then
    { res := ERROR, fitInvoked := false, applyPhase := false,
      deviceWrite := none, paramStruct := none, paramWrites := [],
      nsamples := 0, errcount := 0 }
  else
    if env.sub_ok = false then
      { res := ERROR, fitInvoked := false, applyPhase := false,
        deviceWrite := none, paramStruct := none, paramWrites := [],
        nsamples := 0, errcount := 0 }
    else
      if (acqGo env.events [] 0).aborted = true then
        { res := ERROR, fitInvoked := false, applyPhase := false,
          deviceWrite := none, paramStruct := none, paramWrites := [],
          nsamples := (acqGo env.events [] 0).samples.length,
          errcount := (acqGo env.events [] 0).errcount }
      else
        if calibration_maxcount / 2 < (acqGo env.events [] 0).samples.length then
          if (isfinite env.fitX && isfinite env.fitY && isfinite env.fitZ) = true then
            applyStage s device_id env env.fitX env.fitY env.fitZ true
              (acqGo env.events [] 0)
          else
            { res := ERROR, fitInvoked := true, applyPhase := false,
              deviceWrite := none, paramStruct := none, paramWrites := [],
              nsamples := (acqGo env.events [] 0).samples.length,
              errcount := (acqGo env.events [] 0).errcount }
        else
          applyStage s device_id env env.garbX env.garbY env.garbZ false
            (acqGo env.events [] 0)

/-- Environment oracle for one instance slot of do_mag_calibration: the
outcome of the open call, the device id returned by the ioctl, the
outcomes of the reset and range calibration ioctls, and the environment
of the calibrate_instance call. -/
structure DevEnv : Type where
  open_ok : Bool
  dev_id : Nat
  reset_ok : Bool
  rangecal_ok : Bool
  inst : InstEnv

/-- Trace record for one instance slot of the orchestration loop. -/
structure InstRec : Type where
  idx : Nat
  opened : Bool
  resetOk : Bool
  rangecalAttempted : Bool
  calibAttempted : Bool
  calib : Option InstResult
deriving DecidableEq

/-- One iteration of the loop of do_mag_calibration (lines 93 to 137) for
instance s with incoming running status res: returns the outgoing res,
the trace record, and the increment of calibrated_ok.  Mirrors the
source: open failure skips via continue, reset failure leaves res at
ERROR which gates out the rest, a range calibration failure is forced
back to OK, and calibrate_instance runs only when res is OK. -/
def instStep (s : Nat) (d : DevEnv) (res : Int) : Int × InstRec × Nat :=
  if d.open_ok = false then
    (res, { idx := s, opened := false, resetOk := false,
            rangecalAttempted := false, calibAttempted := false,
            calib := none }, 0)
  else
    if (if d.reset_ok then OK else ERROR) = OK then
      if (if (if d.rangecal_ok then OK else ERROR) = OK
          then (if d.rangecal_ok then OK else ERROR) else OK) = OK then
        (((calibrate_instance s d.dev_id d.inst).res),
         { idx := s, opened := true, resetOk := true,
           rangecalAttempted := true, calibAttempted := true,
           calib := some (calibrate_instance s d.dev_id d.inst) },
         if (calibrate_instance s d.dev_id d.inst).res = OK then 1 else 0)
      else
        ((if (if d.rangecal_ok then OK else ERROR) = OK
          then (if d.rangecal_ok then OK else ERROR) else OK),
         { idx := s, opened := true, resetOk := true,
           rangecalAttempted := true, calibAttempted := false,
           calib := none }, 0)
    else
      (ERROR,
       { idx := s, opened := true, resetOk := false,
         rangecalAttempted := false, calibAttempted := false,
         calib := none }, 0)

/-- Environment oracle for one run of do_mag_calibration: the per slot
device environments and the outcome of param_save_default. -/
structure OrchEnv : Type where
  devs : Nat → DevEnv
  save_ok : Bool

/-- Observable outcome of do_mag_calibration: the returned res, the trace
records of the loop, the final calibrated_ok counter, and whether the
save to EEPROM was attempted. -/
structure OrchResult : Type where
  res : Int
  recs : List InstRec
  calibrated_ok : Nat
  saveAttempted : Bool
deriving DecidableEq

/-- The loop of do_mag_calibration over the remaining instance indices,
threading the running res, calibrated_ok and the trace. -/
def orchLoop (devs : Nat → DevEnv) :
    List Nat → Int → Nat → List InstRec → Int × Nat × List InstRec
  | [], res, cok, recs => (res, cok, recs)
  | s :: rest, res, cok, recs =>
    orchLoop devs rest (instStep s (devs s) res).1
      (cok + (instStep s (devs s) res).2.2)
      (recs ++ [(instStep s (devs s) res).2.1])

/-- max_mags = 3 in do_mag_calibration. -/
def max_mags : Nat := 3

/-- do_mag_calibration (lines 68 to 156): run the loop over instance
indices 0 to max_mags - 1 starting from res = ERROR; if at least one
instance calibrated, res becomes the outcome of param_save_default;
otherwise the failure message is emitted and the last res is returned. -/
def do_mag_calibration (env : OrchEnv) : OrchResult :=
  if 0 < (orchLoop env.devs (List.range max_mags) ERROR 0 []).2.1 then
    { res := if env.save_ok then OK else ERROR,
      recs := (orchLoop env.devs (List.range max_mags) ERROR 0 []).2.2,
      calibrated_ok := (orchLoop env.devs (List.range max_mags) ERROR 0 []).2.1,
      saveAttempted := true }
  else
    { res := (orchLoop env.devs (List.range max_mags) ERROR 0 []).1,
      recs := (orchLoop env.devs (List.range max_mags) ERROR 0 []).2.2,
      calibrated_ok := (orchLoop env.devs (List.range max_mags) ERROR 0 []).2.1,
      saveAttempted := false }

/-- Success of one instance slot viewed on its own: the device opened, the
reset succeeded, and calibrate_instance returned OK. -/
def instSucceeds (s : Nat) (d : DevEnv) : Bool :=
  d.open_ok && d.reset_ok &&
    decide ((calibrate_instance s d.dev_id d.inst).res = OK)

/-- An identity scale struct, the shape the reset ioctl installs. -/
def scaleA : mag_scale :=
  { x_offset := some 0, x_scale := some 1, y_offset := some 0, y_scale := some 1,
    z_offset := some 0, z_scale := some 1, cal_temp := some 0, min_temp := some 0,
    max_temp := some 0, x1_temp0 := some 0, x1_temp1 := some 0, x1_temp2 := some 0,
    x2_temp0 := some 0, x2_temp1 := some 0, x2_temp2 := some 0,
    x3_temp0 := some 0, x3_temp1 := some 0, x3_temp2 := some 0 }

/-- A fully cooperative instance environment: 121 samples arrive, the fit
returns a finite center, and every device and store operation succeeds. -/
def instGood : InstEnv :=
  { alloc_ok := true, sub_ok := true,
    events := List.replicate 121 (PollEvent.sample (some 1) (some 2) (some 3)),
    fitX := some 5, fitY := some 6, fitZ := some 7, fitR := some 8,
    garbX := some 0, garbY := some 0, garbZ := some 0,
    gscale_ok := true, scaleRead := scaleA, sscale_ok := true,
    paramOk := fun _ => true }

/-- A slot whose device does not open (absent hardware). -/
def devClosed : DevEnv :=
  { open_ok := false, dev_id := 0, reset_ok := true, rangecal_ok := true,
    inst := instGood }

/-- A slot whose whole sequence would succeed. -/
def devGood : DevEnv :=
  { open_ok := true, dev_id := 42, reset_ok := true, rangecal_ok := true,
    inst := instGood }

/-- Environment for the C1 failing input: acquisition collects zero
samples (the deadline passes with no poll outcomes) and every later
operation succeeds. -/
def envC1 : InstEnv := { instGood with events := [] }

/-- Environment for the C2 counterexample: instance 0 succeeds fully, the
other slots have no device, and param_save_default fails. -/
def envC2 : OrchEnv :=
  { devs := fun s => if s = 0 then devGood else devClosed, save_ok := false }

/-- Environment for the C3 counterexample: one poll timeout followed by
one successful sample. -/
def envC3 : InstEnv :=
  { instGood with
    events := [PollEvent.timeout, PollEvent.sample (some 1) (some 1) (some 1)] }

/-- Environment for the C4 counterexample: instance 0 opens but the reset
write fails; everything after it would succeed. -/
def envC4 : OrchEnv :=
  { devs := fun s => if s = 0 then { devGood with reset_ok := false } else devClosed,
    save_ok := true }

/-- Environment for the C5 failing input: five samples arrive (below the
threshold), and the uninitialized sphere center contains a non finite
x component. -/
def envC5 : InstEnv :=
  { instGood with
    events := List.replicate 5 (PollEvent.sample (some 1) (some 2) (some 3)),
    garbX := none }

/-- Environment for the C6 witness. -/
def envC6 : InstEnv := instGood

/-- Environment for the C7 witness: the fourth param_set call fails. -/
def envC7 : InstEnv := { instGood with paramOk := fun i => !(i == 3) }

/-- In the acquisition loop, an abort happened exactly when the final
poll_errcount exceeds 1000, provided the incoming count does not already
exceed it. -/
theorem acq_abort_iff (evs : List PollEvent) (buf : List Sample) (e : Nat)
    (he : e ≤ 1000) :
    ((acqGo evs buf e).aborted = true ↔ 1000 < (acqGo evs buf e).errcount) := by
  induction evs generalizing buf e with
  | nil =>
    simp only [acqGo]
    constructor
    · intro h
      exact absurd h (by simp)
    · intro h
      omega
  | cons ev rest ih =>
    by_cases hroom : buf.length < calibration_maxcount
    · cases ev with
      | timeout =>
        by_cases habort : 1000 < e + 1
        · simp [acqGo, hroom, habort]
        · simp only [acqGo, if_pos hroom, if_neg habort]
          exact ih buf (e + 1) (by omega)
      | sample a b c =>
        have hne : ¬ 1000 < e := by omega
        simp only [acqGo, if_pos hroom, if_neg hne]
        exact ih (buf ++ [(a, b, c)]) e he
    · simp only [acqGo, if_neg hroom]
      constructor
      · intro h
        exact absurd h (by simp)
      · intro h
        omega

/-- Bool identity used for the param write phase: some write failed
exactly when not all writes succeeded. -/
theorem any_not_ok_eq (l : List ParamWrite) :
    (l.any fun w => !w.ok) = !(l.all fun w => w.ok) := by
  induction l with
  | nil => rfl
  | cons a t ih => simp [List.any_cons, List.all_cons, ih, Bool.not_and]

/-- The increment of calibrated_ok contributed by one slot is 1 exactly
when that slot succeeds on its own. -/
theorem instStep_inc (s : Nat) (d : DevEnv) (res : Int) :
    (instStep s d res).2.2 = (if instSucceeds s d = true then 1 else 0) := by
  unfold instStep instSucceeds
  cases ho : d.open_ok with
  | false => simp [ho]
  | true =>
    cases hr : d.reset_ok with
    | false => simp [ho, hr, OK, ERROR]
    | true =>
      cases hc : d.rangecal_ok with
      | false =>
        by_cases hi : (calibrate_instance s d.dev_id d.inst).res = OK <;>
          simp [ho, hr, hc, hi, OK, ERROR]
      | true =>
        by_cases hi : (calibrate_instance s d.dev_id d.inst).res = OK <;>
          simp [ho, hr, hc, hi, OK, ERROR]

/-- The trace record of one slot carries the slot index. -/
theorem instStep_idx (s : Nat) (d : DevEnv) (res : Int) :
    (instStep s d res).2.1.idx = s := by
  unfold instStep
  cases ho : d.open_ok with
  | false => simp [ho]
  | true =>
    cases hr : d.reset_ok with
    | false => simp [ho, hr, OK, ERROR]
    | true =>
      cases hc : d.rangecal_ok <;> simp [ho, hr, hc, OK, ERROR]

/-- If one slot leaves the running status at OK, either it contributed a
success or the status was already OK coming in. -/
theorem instStep_ok (s : Nat) (d : DevEnv) (res : Int)
    (h : (instStep s d res).1 = OK) :
    1 ≤ (instStep s d res).2.2 ∨ res = OK := by
  unfold instStep at h ⊢
  cases ho : d.open_ok with
  | false =>
    rw [ho] at h
    simp at h
    exact Or.inr h
  | true =>
    cases hr : d.reset_ok with
    | false =>
      rw [ho, hr] at h
      simp [OK, ERROR] at h
    | true =>
      cases hc : d.rangecal_ok with
      | false =>
        rw [ho, hr, hc] at h
        simp only [Bool.false_eq_true, if_false, Bool.true_eq_false] at h
        simp only [ho, hr, hc]
        simp [OK, ERROR] at h ⊢
        simp [h]
      | true =>
        rw [ho, hr, hc] at h
        simp only [Bool.true_eq_false, if_true] at h
        simp only [ho, hr, hc]
        simp [OK, ERROR] at h ⊢
        simp [h]

/-- Loop invariant: if the loop ends with res at OK then at least one
slot was counted as calibrated, provided the invariant held coming in. -/
theorem orchLoop_ok (devs : Nat → DevEnv) (l : List Nat) (res : Int)
    (cok : Nat) (recs : List InstRec) (h : res = OK → 1 ≤ cok)
    (hfin : (orchLoop devs l res cok recs).1 = OK) :
    1 ≤ (orchLoop devs l res cok recs).2.1 := by
  induction l generalizing res cok recs with
  | nil =>
    simp only [orchLoop] at hfin ⊢
    exact h hfin
  | cons a t ih =>
    simp only [orchLoop] at hfin ⊢
    refine ih _ _ _ ?_ hfin
    intro hOK
    rcases instStep_ok a (devs a) res hOK with h1 | h2
    · omega
    · have := h h2
      omega

/-- The final calibrated_ok of the loop counts exactly the slots that
succeed on their own. -/
theorem orchLoop_count (devs : Nat → DevEnv) (l : List Nat) (res : Int)
    (cok : Nat) (recs : List InstRec) :
    (orchLoop devs l res cok recs).2.1
      = cok + l.countP (fun s => instSucceeds s (devs s)) := by
  induction l generalizing res cok recs with
  | nil => simp [orchLoop]
  | cons a t ih =>
    simp only [orchLoop, ih, instStep_inc, List.countP_cons]
    by_cases h : instSucceeds a (devs a) = true <;> simp [h]
    omega

/-- The loop appends exactly one trace record per index, in order. -/
theorem orchLoop_idx (devs : Nat → DevEnv) (l : List Nat) (res : Int)
    (cok : Nat) (recs : List InstRec) :
    (orchLoop devs l res cok recs).2.2.map (fun r => r.idx)
      = recs.map (fun r => r.idx) ++ l := by
  induction l generalizing res cok recs with
  | nil => simp [orchLoop]
  | cons a t ih =>
    simp only [orchLoop, ih]
    simp [instStep_idx]

/-- Reduction helper: when allocation and subscription succeed, the
acquisition does not abort, more than half the capacity was collected,
and the fitted center is finite, calibrate_instance reaches the apply
block with the fitted center. -/
theorem calibrate_reaches_apply (s dev : Nat) (env : InstEnv)
    (h1 : env.alloc_ok = true) (h2 : env.sub_ok = true)
    (h3 : (acqGo env.events [] 0).aborted = false)
    (h4 : calibration_maxcount / 2 < (acqGo env.events [] 0).samples.length)
    (h5 : isfinite env.fitX = true) (h6 : isfinite env.fitY = true)
    (h7 : isfinite env.fitZ = true) :
    calibrate_instance s dev env
      = applyStage s dev env env.fitX env.fitY env.fitZ true
          (acqGo env.events [] 0) := by
  unfold calibrate_instance
  simp [h1, h2, h3, h4, h5, h6, h7]

/-- Claim C1 (code bug): with zero collected samples (at most half of the
240 capacity) and no sensor abort, the sphere fit is indeed never
invoked, but the code does not mark the instance failed: res stays OK,
the apply block runs with the uninitialized sphere center, all 19
parameters are written, and the instance is reported successful. -/
theorem C1_insufficient_samples_bug :
    (calibrate_instance 0 7 envC1).fitInvoked = false
    ∧ (calibrate_instance 0 7 envC1).nsamples = 0
    ∧ (calibrate_instance 0 7 envC1).applyPhase = true
    ∧ (calibrate_instance 0 7 envC1).paramWrites.length = 19
    ∧ (calibrate_instance 0 7 envC1).res = OK := by decide

/-- Claim C5 (code bug): with five collected samples the fit is never
invoked, yet the XOFF parameter is written with the uninitialized and
non finite sphere center component, and the instance reports success;
so offsets are not written only when a fit was attempted with a finite
center. -/
theorem C5_offsets_written_without_fit :
    (calibrate_instance 0 7 envC5).fitInvoked = false
    ∧ (calibrate_instance 0 7 envC5).res = OK
    ∧ (calibrate_instance 0 7 envC5).paramWrites.get? 1
        = some { key := "CAL_MAG0_XOFF", val := PVal.pfl none, ok := true } := by
  decide

/-- Counterexample to claim C3 as stated: after one poll timeout followed
by one successfully received sample, the failure counter is 1, not 0, so
a successful sample does not reset it. -/
theorem C3_counter_not_reset :
    (calibrate_instance 0 0 envC3).errcount = 1
    ∧ ¬ (calibrate_instance 0 0 envC3).errcount = 0 := by decide

/-- Counterexample to claim C2 as stated: one instance calibrates
successfully but param_save_default fails, and the overall result is
ERROR, not success. -/
theorem C2_persist_fail_is_failure :
    (do_mag_calibration envC2).calibrated_ok = 1
    ∧ (do_mag_calibration envC2).res = ERROR := by decide

/-- Counterexample to claim C4 as stated: instance 0 opens and its reset
write fails; acquisition, fit and apply are not attempted for it
(calibrate_instance is never called), so processing of that instance
does not continue. -/
theorem C4_reset_failure_stops_instance :
    (do_mag_calibration envC4).recs.get? 0
      = some { idx := 0, opened := true, resetOk := false,
               rangecalAttempted := false, calibAttempted := false,
               calib := none }
    ∧ (do_mag_calibration envC4).calibrated_ok = 0 := by decide

/-- Claim C2 (amended): the overall result of do_mag_calibration is OK
exactly when at least one instance calibrated successfully AND the final
param_save_default succeeded; a persistence failure after a successful
instance makes the overall result ERROR (the applied calibration and the
already written parameters remain, but the returned status is failure). -/
theorem C2_overall_status (env : OrchEnv) :
    (do_mag_calibration env).res = OK
      ↔ (1 ≤ (do_mag_calibration env).calibrated_ok ∧ env.save_ok = true) := by
  unfold do_mag_calibration
  by_cases hc : 0 < (orchLoop env.devs (List.range max_mags) ERROR 0 []).2.1
  · rw [if_pos hc]
    cases hs : env.save_ok
    · simp only [hs, Bool.false_eq_true, if_false]
      constructor
      · intro h
        exact absurd h (by simp [OK, ERROR])
      · intro h
        exact absurd h.2 (by simp)
    · simp only [hs, if_true]
      constructor
      · intro h
        exact ⟨hc, trivial⟩
      · intro h
        trivial
  · rw [if_neg hc]
    constructor
    · intro h
      have h1 := orchLoop_ok env.devs (List.range max_mags) ERROR 0 []
        (by intro hE; simp [ERROR, OK] at hE) h
      exact absurd h1 hc
    · intro h
      exact absurd h.1 hc

/-- Claim C3 (amended): the failure counter is cumulative over the whole
acquisition: each wait timeout increments it, a successfully received
sample leaves it unchanged (it is never reset), and the loop aborts with
the sensor failure error exactly when the counter exceeds 1000. -/
theorem C3_failure_counter (rest : List PollEvent) (buf : List Sample)
    (e : Nat) (v : FloatV)
    (hroom : buf.length < calibration_maxcount) (he : e ≤ 1000) :
    (acqGo (PollEvent.timeout :: rest) buf e
        = if 1000 < e + 1
          then { samples := buf, errcount := e + 1, aborted := true }
          else acqGo rest buf (e + 1))
    ∧ (acqGo (PollEvent.sample v v v :: rest) buf e
        = acqGo rest (buf ++ [(v, v, v)]) e)
    ∧ ((acqGo rest [] 0).aborted = true ↔ 1000 < (acqGo rest [] 0).errcount) := by
  refine ⟨?_, ?_, acq_abort_iff rest [] 0 (by omega)⟩
  · simp only [acqGo, if_pos hroom]
  · have hne : ¬ 1000 < e := by omega
    simp only [acqGo, if_pos hroom, if_neg hne]

/-- Witness for C3_failure_counter at a concrete input. -/
theorem C3_failure_counter_w :
    (acqGo [PollEvent.timeout] [] 0
        = if 1000 < 0 + 1
          then { samples := [], errcount := 0 + 1, aborted := true }
          else acqGo [] [] (0 + 1))
    ∧ (acqGo [PollEvent.sample (some 1) (some 1) (some 1)] [] 0
        = acqGo [] ([] ++ [(some 1, some 1, some 1)]) 0)
    ∧ ((acqGo [] [] 0).aborted = true ↔ 1000 < (acqGo [] [] 0).errcount) :=
  C3_failure_counter [] [] 0 (some 1) (by decide) (by decide)

/-- Claim C4 (amended): when the device opens but the reset write fails,
a critical message is reported and that instance is abandoned: range
calibration, acquisition, fit and apply are all skipped, the running
status is ERROR, and nothing is counted; the orchestrator then moves on
to the next index. -/
theorem C4_reset_failure_aborts (s : Nat) (d : DevEnv) (res : Int)
    (h1 : d.open_ok = true) (h2 : d.reset_ok = false) :
    instStep s d res
      = (ERROR, { idx := s, opened := true, resetOk := false,
                  rangecalAttempted := false, calibAttempted := false,
                  calib := none }, 0) := by
  unfold instStep
  simp [h1, h2, OK, ERROR]

/-- A slot whose device opens but whose reset write fails. -/
def devResetFail : DevEnv := { devGood with reset_ok := false }

/-- Witness for C4_reset_failure_aborts at a concrete input. -/
theorem C4_reset_failure_aborts_w :
    instStep 0 devResetFail ERROR
      = (ERROR, { idx := 0, opened := true, resetOk := false,
                  rangecalAttempted := false, calibAttempted := false,
                  calib := none }, 0) :=
  C4_reset_failure_aborts 0 devResetFail ERROR rfl rfl

/-- Claim C6 (confirmed): in the apply step the struct read back from the
device gets only its three offsets replaced by the fitted center before
being written back; the struct sent to the parameter store keeps the
scale factors exactly as read, and its temperature compensation fields
are overwritten with the hardcoded table exactly when the device id is
the literal 131594, otherwise they stay as read. -/
theorem C6_apply_only_offsets (s dev : Nat) (env : InstEnv)
    (h1 : env.alloc_ok = true) (h2 : env.sub_ok = true)
    (h3 : (acqGo env.events [] 0).aborted = false)
    (h4 : calibration_maxcount / 2 < (acqGo env.events [] 0).samples.length)
    (h5 : isfinite env.fitX = true) (h6 : isfinite env.fitY = true)
    (h7 : isfinite env.fitZ = true)
    (h8 : env.gscale_ok = true) (h9 : env.sscale_ok = true) :
    (calibrate_instance s dev env).deviceWrite
        = some { env.scaleRead with
            x_offset := env.fitX, y_offset := env.fitY, z_offset := env.fitZ }
    ∧ ∃ m, (calibrate_instance s dev env).paramStruct = some m
        ∧ m.x_offset = env.fitX ∧ m.y_offset = env.fitY ∧ m.z_offset = env.fitZ
        ∧ m.x_scale = env.scaleRead.x_scale
        ∧ m.y_scale = env.scaleRead.y_scale
        ∧ m.z_scale = env.scaleRead.z_scale
        ∧ (dev = 131594 →
            (m.cal_temp = some 25.00 ∧ m.min_temp = some 3.30
             ∧ m.max_temp = some 41.18
             ∧ m.x3_temp0 = some 0.0000002037008925981353968
             ∧ m.x2_temp0 = some (-0.0000053157482398091815412)
             ∧ m.x1_temp0 = some (-0.0008966009481810033321380)
             ∧ m.x3_temp1 = some (-0.0000000252839047476527412)
             ∧ m.x2_temp1 = some (-0.0000029153295599826378747)
             ∧ m.x1_temp1 = some 0.0003352015919517725706100
             ∧ m.x3_temp2 = some 0.0000000083432984965270406
             ∧ m.x2_temp2 = some 0.0000064743926486698910593
             ∧ m.x1_temp2 = some (-0.0014722041087225079536437)))
        ∧ (¬ dev = 131594 →
            (m.cal_temp = env.scaleRead.cal_temp
             ∧ m.min_temp = env.scaleRead.min_temp
             ∧ m.max_temp = env.scaleRead.max_temp
             ∧ m.x1_temp0 = env.scaleRead.x1_temp0
             ∧ m.x1_temp1 = env.scaleRead.x1_temp1
             ∧ m.x1_temp2 = env.scaleRead.x1_temp2
             ∧ m.x2_temp0 = env.scaleRead.x2_temp0
             ∧ m.x2_temp1 = env.scaleRead.x2_temp1
             ∧ m.x2_temp2 = env.scaleRead.x2_temp2
             ∧ m.x3_temp0 = env.scaleRead.x3_temp0
             ∧ m.x3_temp1 = env.scaleRead.x3_temp1
             ∧ m.x3_temp2 = env.scaleRead.x3_temp2)) := by
  rw [calibrate_reaches_apply s dev env h1 h2 h3 h4 h5 h6 h7]
  unfold applyStage
  simp only [h8, h9, Bool.true_eq_false, if_false, if_neg]
  refine ⟨?_, applyTempTable dev { env.scaleRead with
    x_offset := env.fitX, y_offset := env.fitY, z_offset := env.fitZ }, ?_, ?_⟩
  · trivial
  · trivial
  by_cases hdev : dev = 131594
  · simp [applyTempTable, tempTable, hdev]
  · simp [applyTempTable, hdev]

/-- Witness for C6_apply_only_offsets at a concrete input with the
matching device id. -/
theorem C6_apply_only_offsets_w :
    (calibrate_instance 1 131594 envC6).deviceWrite
        = some { envC6.scaleRead with
            x_offset := envC6.fitX, y_offset := envC6.fitY, z_offset := envC6.fitZ }
    ∧ ∃ m, (calibrate_instance 1 131594 envC6).paramStruct = some m
        ∧ m.x_offset = envC6.fitX ∧ m.y_offset = envC6.fitY ∧ m.z_offset = envC6.fitZ
        ∧ m.x_scale = envC6.scaleRead.x_scale
        ∧ m.y_scale = envC6.scaleRead.y_scale
        ∧ m.z_scale = envC6.scaleRead.z_scale
        ∧ (131594 = 131594 →
            (m.cal_temp = some 25.00 ∧ m.min_temp = some 3.30
             ∧ m.max_temp = some 41.18
             ∧ m.x3_temp0 = some 0.0000002037008925981353968
             ∧ m.x2_temp0 = some (-0.0000053157482398091815412)
             ∧ m.x1_temp0 = some (-0.0008966009481810033321380)
             ∧ m.x3_temp1 = some (-0.0000000252839047476527412)
             ∧ m.x2_temp1 = some (-0.0000029153295599826378747)
             ∧ m.x1_temp1 = some 0.0003352015919517725706100
             ∧ m.x3_temp2 = some 0.0000000083432984965270406
             ∧ m.x2_temp2 = some 0.0000064743926486698910593
             ∧ m.x1_temp2 = some (-0.0014722041087225079536437)))
        ∧ (¬ (131594 : Nat) = 131594 →
            (m.cal_temp = envC6.scaleRead.cal_temp
             ∧ m.min_temp = envC6.scaleRead.min_temp
             ∧ m.max_temp = envC6.scaleRead.max_temp
             ∧ m.x1_temp0 = envC6.scaleRead.x1_temp0
             ∧ m.x1_temp1 = envC6.scaleRead.x1_temp1
             ∧ m.x1_temp2 = envC6.scaleRead.x1_temp2
             ∧ m.x2_temp0 = envC6.scaleRead.x2_temp0
             ∧ m.x2_temp1 = envC6.scaleRead.x2_temp1
             ∧ m.x2_temp2 = envC6.scaleRead.x2_temp2
             ∧ m.x3_temp0 = envC6.scaleRead.x3_temp0
             ∧ m.x3_temp1 = envC6.scaleRead.x3_temp1
             ∧ m.x3_temp2 = envC6.scaleRead.x3_temp2)) :=
  C6_apply_only_offsets 1 131594 envC6 rfl rfl (by decide) (by decide)
    rfl rfl rfl rfl rfl

/-- Claim C7 (confirmed): in the parameter write sequence all 19 field
writes are attempted in program order regardless of individual failures
(the attempted key list never depends on the store outcomes and nothing
is rolled back: the i-th outcome is exactly what the store reported for
the i-th write), and the instance result is OK exactly when every single
write succeeded. -/
theorem C7_param_write_sequence (s dev : Nat) (env : InstEnv)
    (h1 : env.alloc_ok = true) (h2 : env.sub_ok = true)
    (h3 : (acqGo env.events [] 0).aborted = false)
    (h4 : calibration_maxcount / 2 < (acqGo env.events [] 0).samples.length)
    (h5 : isfinite env.fitX = true) (h6 : isfinite env.fitY = true)
    (h7 : isfinite env.fitZ = true)
    (h8 : env.gscale_ok = true) (h9 : env.sscale_ok = true) :
    ((calibrate_instance s dev env).paramWrites.map (fun w => w.key)
        = paramKeys s)
    ∧ ((calibrate_instance s dev env).paramWrites.map (fun w => w.ok)
        = [env.paramOk 0, env.paramOk 1, env.paramOk 2, env.paramOk 3,
           env.paramOk 4, env.paramOk 5, env.paramOk 6, env.paramOk 7,
           env.paramOk 8, env.paramOk 9, env.paramOk 10, env.paramOk 11,
           env.paramOk 12, env.paramOk 13, env.paramOk 14, env.paramOk 15,
           env.paramOk 16, env.paramOk 17, env.paramOk 18])
    ∧ ((calibrate_instance s dev env).res = OK
        ↔ ((calibrate_instance s dev env).paramWrites.all fun w => w.ok) = true) := by
  rw [calibrate_reaches_apply s dev env h1 h2 h3 h4 h5 h6 h7]
  unfold applyStage
  simp only [h8, h9, Bool.true_eq_false, if_false]
  refine ⟨rfl, rfl, ?_⟩
  generalize runWrites env.paramOk (paramSeq s dev
    (applyTempTable dev { env.scaleRead with
      x_offset := env.fitX, y_offset := env.fitY, z_offset := env.fitZ })) = ws
  rw [any_not_ok_eq]
  cases hall : (ws.all fun w => w.ok) <;> simp [hall, OK, ERROR]

/-- Witness for C7_param_write_sequence at a concrete input where the
fourth write fails. -/
theorem C7_param_write_sequence_w :
    ((calibrate_instance 2 5 envC7).paramWrites.map (fun w => w.key)
        = paramKeys 2)
    ∧ ((calibrate_instance 2 5 envC7).paramWrites.map (fun w => w.ok)
        = [envC7.paramOk 0, envC7.paramOk 1, envC7.paramOk 2, envC7.paramOk 3,
           envC7.paramOk 4, envC7.paramOk 5, envC7.paramOk 6, envC7.paramOk 7,
           envC7.paramOk 8, envC7.paramOk 9, envC7.paramOk 10, envC7.paramOk 11,
           envC7.paramOk 12, envC7.paramOk 13, envC7.paramOk 14, envC7.paramOk 15,
           envC7.paramOk 16, envC7.paramOk 17, envC7.paramOk 18])
    ∧ ((calibrate_instance 2 5 envC7).res = OK
        ↔ ((calibrate_instance 2 5 envC7).paramWrites.all fun w => w.ok) = true) :=
  C7_param_write_sequence 2 5 envC7 rfl rfl (by decide) (by decide)
    rfl rfl rfl rfl rfl

/-- Claim C8 (confirmed): a failing internal range self calibration is
reported as informational only and the running status is forced back to
OK, so the whole instance outcome is identical to the outcome with a
succeeding range calibration, and acquisition (calibrate_instance) is
still attempted. -/
theorem C8_rangecal_soft_failure (s : Nat) (d : DevEnv) (res : Int)
    (h1 : d.open_ok = true) (h2 : d.reset_ok = true) :
    instStep s d res = instStep s { d with rangecal_ok := true } res
    ∧ (instStep s d res).2.1.calibAttempted = true := by
  unfold instStep
  cases hc : d.rangecal_ok <;> simp [h1, h2, hc, OK, ERROR]

/-- A slot whose range self calibration fails. -/
def devRangeFail : DevEnv := { devGood with rangecal_ok := false }

/-- Witness for C8_rangecal_soft_failure at a concrete input. -/
theorem C8_rangecal_soft_failure_w :
    instStep 1 devRangeFail ERROR
        = instStep 1 { devRangeFail with rangecal_ok := true } ERROR
    ∧ (instStep 1 devRangeFail ERROR).2.1.calibAttempted = true :=
  C8_rangecal_soft_failure 1 devRangeFail ERROR rfl rfl

/-- Length of the trace of the orchestration loop over the three indices. -/
theorem orchLoop_len3 (devs : Nat → DevEnv) :
    (orchLoop devs (List.range max_mags) ERROR 0 []).2.2.length = max_mags := by
  have h := congrArg List.length (orchLoop_idx devs (List.range max_mags) ERROR 0 [])
  simpa using h

/-- Claim C9 (confirmed): no instance failure aborts the orchestration
loop: one trace record is produced for every index in order, and the
number of successfully calibrated instances is exactly the count of
slots that succeed viewed on their own, so an earlier failure never
prevents a later instance from calibrating. -/
theorem C9_failures_never_abort_loop (env : OrchEnv) :
    (do_mag_calibration env).calibrated_ok
        = (List.range max_mags).countP (fun s => instSucceeds s (env.devs s))
    ∧ (do_mag_calibration env).recs.map (fun r => r.idx) = List.range max_mags := by
  unfold do_mag_calibration
  split <;> simp [orchLoop_count, orchLoop_idx]

/-- Claim C10 (confirmed): do_mag_calibration touches exactly the device
indices 0, 1 and 2: its entire result depends only on those three slots
(and the save outcome), and its trace has exactly max_mags = 3 records. -/
theorem C10_at_most_three_instances (env env2 : OrchEnv)
    (hdev : ∀ s, s < max_mags → env.devs s = env2.devs s)
    (hsave : env.save_ok = env2.save_ok) :
    do_mag_calibration env = do_mag_calibration env2
    ∧ (do_mag_calibration env).recs.length = max_mags := by
  have h0 := hdev 0 (by decide)
  have h1 := hdev 1 (by decide)
  have h2 := hdev 2 (by decide)
  have hrange : List.range max_mags = [0, 1, 2] := rfl
  constructor
  · unfold do_mag_calibration
    rw [hrange]
    simp only [orchLoop, h0, h1, h2, hsave]
  · unfold do_mag_calibration
    by_cases hc : 0 < (orchLoop env.devs (List.range max_mags) ERROR 0 []).2.1 <;>
      simp [hc, orchLoop_len3]

/-- All slots closed, save failing. -/
def envA : OrchEnv := { devs := fun _ => devClosed, save_ok := false }

/-- Same slots 0 to 2 as envA, but a different slot at index 3. -/
def envB : OrchEnv :=
  { devs := fun s => if s ≤ 2 then devClosed else devGood, save_ok := false }

/-- Witness for C10_at_most_three_instances: two environments that agree
on indices 0 to 2 but differ at index 3 yield identical results. -/
theorem C10_at_most_three_instances_w :
    do_mag_calibration envA = do_mag_calibration envB
    ∧ (do_mag_calibration envA).recs.length = max_mags :=
  C10_at_most_three_instances envA envB
    (by
      intro s hs
      have hs3 : s < 3 := hs
      interval_cases s <;> rfl)
    rfl
